import Mathlib

/-!
Verification of the ChaCha-Chaudari conversational backend.

This file gives a shallow embedding, over `ℚ` and Lean `String`s, of the
retrieval-augmented-generation (RAG) and response-fallback layer of the
repository: `backend/rag_utils.py` (hash embedder and `SimpleIndex`) and the
`/llama-chat` and `/llama-chat-stream` handlers of `backend/app.py`
(the active `create_app` revision, lines 862-2053, together with the
module-level fallback helpers that are re-bound after `app = create_app()`
and are therefore the ones route closures see at request time).

Floating-point values are modelled by `ℚ`.  The only float operation the
embedded code uses that has no exact rational counterpart is the square
root inside `np.linalg.norm`; it is abstracted by an explicit function
parameter `sq : ℚ → ℚ`, constrained in theorems by exactly the properties
of the real square root that the code relies on (nonnegativity and
vanishing precisely at zero).  The external LLM (`llm.generate` plus
tokenizer decode) is modelled as an oracle: a list of decoded outputs
consumed one per generation call, with every call recorded in a trace.
-/

namespace ChaCha

/-! ## Python string primitives

All helpers are written by structural recursion over `String.data`
(`List Char`) so that every theorem witness can be evaluated inside the
kernel. -/

/-- Python `str.lower()` (ASCII case folding, which covers every string the
code compares). -/
def pyLower (s : String) : String := String.mk (s.data.map Char.toLower)

/-- Strip leading and trailing whitespace from a character list. -/
def trimL (l : List Char) : List Char :=
  ((l.dropWhile Char.isWhitespace).reverse.dropWhile Char.isWhitespace).reverse

/-- Python `str.strip()` with no argument. -/
def pyStrip (s : String) : String := String.mk (trimL s.data)

/-- Tokenizer for Python `str.split()` with no argument: split on whitespace
runs and drop empty pieces. -/
def splitWsAux : List Char → List Char → List (List Char)
  | [], acc => if acc.isEmpty then [] else [acc.reverse]
  | c :: rest, acc =>
      if c.isWhitespace then
        if acc.isEmpty then splitWsAux rest [] else acc.reverse :: splitWsAux rest []
      else splitWsAux rest (c :: acc)

/-- Python `str.split()` with no argument. -/
def pySplitWs (s : String) : List String :=
  (splitWsAux s.data []).map String.mk

/-- `pre` is a prefix of `l`. -/
def prefixL : List Char → List Char → Bool
  | [], _ => true
  | _ :: _, [] => false
  | a :: as, b :: bs => a == b && prefixL as bs

/-- `needle` occurs somewhere in `hay`. -/
def containsL (needle : List Char) : List Char → Bool
  | [] => prefixL needle []
  | c :: rest => prefixL needle (c :: rest) || containsL needle rest

/-- Python `needle in hay` for strings (substring containment). -/
def pyIn (needle hay : String) : Bool := containsL needle.data hay.data

/-- Python `s.startswith(pre)`. -/
def pyStartsWith (s pre : String) : Bool := prefixL pre.data s.data

/-- Replace non-overlapping occurrences of `pat` left to right, structurally
recursive on a fuel that starts at the text length (each step consumes at
least one character, so the fuel never runs out early). -/
def replaceFuel (pat rep : List Char) : Nat → List Char → List Char
  | 0, s => s
  | _ + 1, [] => []
  | fuel + 1, c :: rest =>
      if !pat.isEmpty && prefixL pat (c :: rest) then
        rep ++ replaceFuel pat rep fuel ((c :: rest).drop pat.length)
      else
        c :: replaceFuel pat rep fuel rest

/-- Python `s.replace(pat, rep)` (for a non-empty pattern, which is the only
way the code uses it). -/
def pyReplace (s pat rep : String) : String :=
  String.mk (replaceFuel pat.data rep.data s.data.length s.data)

/-- The `_norm` helper of the welcome check in `/llama-chat`:
`''.join(ch for ch in s.lower() if ch.isalnum() or ch.isspace()).strip()`. -/
def pyNorm (s : String) : String :=
  pyStrip (String.mk ((pyLower s).data.filter (fun c => c.isAlphanum || c.isWhitespace)))

/-- Python `sep.join(parts)`. -/
def joinSep (sep : String) : List String → String
  | [] => ""
  | [x] => x
  | x :: y :: rest => x ++ sep ++ joinSep sep (y :: rest)

/-- Python `s[:n]`. -/
def takeStr (n : Nat) (s : String) : String := String.mk (s.data.take n)

/-- Python `s[-1]` (`none` on the empty string). -/
def lastChar (s : String) : Option Char := s.data.getLast?

/-- Digits of a decimal literal to a value (`none` on a non-digit or on the
empty digit string). -/
def decDigitsVal : List Char → Option Nat
  | [] => none
  | cs =>
      cs.foldl
        (fun acc c =>
          match acc with
          | none => none
          | some n => if c.isDigit then some (n * 10 + (c.toNat - 48)) else none)
        (some 0)

/-- Python `int(s)` on an already-stripped string, as a partial function
(sign plus decimal digits; the exotic forms Python additionally accepts,
such as digit-group underscores, are not needed by the embedded code). -/
def pyToInt (s : String) : Option Int :=
  match s.data with
  | '-' :: rest => (decDigitsVal rest).map (fun n => -(n : Int))
  | '+' :: rest => (decDigitsVal rest).map (fun n => (n : Int))
  | l => (decDigitsVal l).map (fun n => (n : Int))

/-- Python `a or b or ''` over two optional strings (`''`/`None` are falsy). -/
def pyOrStr (a b : Option String) : String :=
  match a with
  | some s => if s = "" then (match b with | some t => t | none => "") else s
  | none => match b with | some t => t | none => ""

/-- Python builtin `max` on two floats, as used in `max(0.0, ...)`. -/
def pyMax (a b : ℚ) : ℚ := if a < b then b else a

/-- Python builtin `min` on two floats, as used in `min(1.0, ...)`. -/
def pyMin (a b : ℚ) : ℚ := if b < a then b else a

/-- Python `l[-n:]` on a list. -/
def takeLast {α : Type} (n : Nat) (l : List α) : List α := l.drop (l.length - n)

/-! ## SHA-1 (`hashlib.sha1`)

`hash_embed` hashes each token with `int(hashlib.sha1(tok.encode("utf-8")).hexdigest(), 16)`.
We implement SHA-1 over `Nat` with explicit `% 2^32` masking. -/

/-- Truncate to a 32-bit word. -/
def w32 (x : Nat) : Nat := x % 4294967296

/-- 32-bit left rotation. -/
def rotl32 (x n : Nat) : Nat := w32 ((x <<< n) ||| (x >>> (32 - n)))

/-- Big-endian bytes to a natural number. -/
def beNat (bs : List Nat) : Nat := bs.foldl (fun a b => a * 256 + b) 0

/-- `k` big-endian bytes of `n`. -/
def natToBytesBE (n k : Nat) : List Nat :=
  (List.range k).map (fun i => (n >>> (8 * (k - 1 - i))) % 256)

/-- SHA-1 message padding: `0x80`, zeros to 56 mod 64, then the 64-bit
big-endian bit length. -/
def sha1pad (msg : List Nat) : List Nat :=
  msg ++ [128] ++ List.replicate ((56 + 64 - ((msg.length + 1) % 64)) % 64) 0
      ++ natToBytesBE (8 * msg.length) 8

/-- Split a byte list into 64-byte blocks. -/
def chunks64 (l : List Nat) : List (List Nat) :=
  match l with
  | [] => []
  | x :: xs => ((x :: xs).take 64) :: chunks64 (xs.drop 63)
termination_by l.length
decreasing_by
  simp only [List.length_cons, List.length_drop]
  omega

/-- Extend the 16 schedule words of a block to 80. -/
def sha1Extend (w16 : List Nat) : List Nat :=
  (List.range 64).foldl
    (fun w _ =>
      let n := w.length
      w ++ [rotl32 ((w.getD (n-3) 0) ^^^ (w.getD (n-8) 0) ^^^
                    (w.getD (n-14) 0) ^^^ (w.getD (n-16) 0)) 1])
    w16

/-- One SHA-1 compression step over a 64-byte block. -/
def sha1Compress (h : Nat × Nat × Nat × Nat × Nat) (block : List Nat) :
    Nat × Nat × Nat × Nat × Nat :=
  let w16 := (List.range 16).map (fun i => beNat ((block.drop (4*i)).take 4))
  let w := sha1Extend w16
  let init := h
  let fin := (List.range 80).foldl
    (fun st i =>
      let a := st.1; let b := st.2.1; let c := st.2.2.1
      let d := st.2.2.2.1; let e := st.2.2.2.2
      let f :=
        if i < 20 then (b &&& c) ||| ((b ^^^ 4294967295) &&& d)
        else if i < 40 then b ^^^ c ^^^ d
        else if i < 60 then (b &&& c) ||| (b &&& d) ||| (c &&& d)
        else b ^^^ c ^^^ d
      let k :=
        if i < 20 then 1518500249
        else if i < 40 then 1859775393
        else if i < 60 then 2400959708
        else 3395469782
      let temp := w32 (rotl32 a 5 + f + e + k + w.getD i 0)
      (temp, a, rotl32 b 30, c, d))
    init
  (w32 (init.1 + fin.1), w32 (init.2.1 + fin.2.1), w32 (init.2.2.1 + fin.2.2.1),
   w32 (init.2.2.2.1 + fin.2.2.2.1), w32 (init.2.2.2.2 + fin.2.2.2.2))

/-- `int(hashlib.sha1(s.encode("utf-8")).hexdigest(), 16)`: the SHA-1 digest of
the UTF-8 encoding of `s`, read as a 160-bit number. -/
def sha1Nat (s : String) : Nat :=
  let msg := s.toUTF8.toList.map (fun b => b.toNat)
  let d := (chunks64 (sha1pad msg)).foldl sha1Compress
    (1732584193, 4023233417, 2562383102, 271733878, 3285377520)
  (((d.1 * 4294967296 + d.2.1) * 4294967296 + d.2.2.1) * 4294967296
      + d.2.2.2.1) * 4294967296 + d.2.2.2.2

/-! ## `rag_utils.py`: hash embedder and `SimpleIndex` -/

/-- Sum of squares of a vector; `np.linalg.norm v = sqrt (sumSq v)`. -/
def sumSq (v : List ℚ) : ℚ := (v.map (fun x => x * x)).sum

/-- Dot product of two rows (`Q @ E.T` entrywise). -/
def dotQ (a b : List ℚ) : ℚ := ((a.zip b).map (fun p => p.1 * p.2)).sum

/-- `hash_embed(text, dim)` from `rag_utils.py` (lines 88-104): start from a
zero vector, for each whitespace token increment the slot
`sha1(token) % dim`, then L2-normalize unless the norm is zero.
`sq` abstracts the square root used by `np.linalg.norm`. -/
def hash_embed (sq : ℚ → ℚ) (text : String) (dim : Nat) : List ℚ :=
  let vec := (pySplitWs text).foldl
    (fun v token =>
      let idx := sha1Nat token % dim
      v.set idx (v.getD idx 0 + 1))
    (List.replicate dim (0 : ℚ))
  let norm := sq (sumSq vec)
  if 0 < norm then vec.map (fun x => x / norm) else vec

/-- The guard `norms[norms == 0] = 1.0` of `SimpleIndex.search`: a zero norm is
replaced by `1` before the division. -/
def fixNorm (n : ℚ) : ℚ := if n = 0 then 1 else n

/-- `np.linalg.norm` of a row, with the square root abstracted by `sq`. -/
def rowNorm (sq : ℚ → ℚ) (row : List ℚ) : ℚ := sq (sumSq row)

/-- One row of `Q = Q / norms` after the zero-norm guard. -/
def normalizeRow (sq : ℚ → ℚ) (row : List ℚ) : List ℚ :=
  row.map (fun x => x / fixNorm (rowNorm sq row))

/-- Insert an index into a descending-by-value index list (helper for
`argsortDesc`). -/
def insertDesc (row : List ℚ) (i : Nat) : List Nat → List Nat
  | [] => [i]
  | j :: rest =>
      if row.getD j 0 < row.getD i 0 then i :: j :: rest
      else j :: insertDesc row i rest

/-- `np.argsort(-sims)` on one row: indices sorted by descending value (the
order among equal values is unspecified by NumPy's default sort; we use a
deterministic insertion sort). -/
def argsortDesc (row : List ℚ) : List Nat :=
  (List.range row.length).foldr (insertDesc row) []

/-- The linear-scan cosine index of `rag_utils.py`: `embeddings` is the matrix
passed to the constructor (`None` allowed, line 115). -/
structure SimpleIndex where
  embeddings : Option (List (List ℚ))

/-- `SimpleIndex.search(query_mat, k)` (lines 117-135): on an empty index
return `(q, 0)`-shaped results; otherwise L2-normalize the query rows (zero
norms replaced by 1), take cosine similarities against the stored matrix,
and return the top-`k` pseudo-distances `1 - sim` with their indices. -/
def SimpleIndex.search (sq : ℚ → ℚ) (self : SimpleIndex)
    (query_mat : List (List ℚ)) (k : Nat) :
    List (List ℚ) × List (List Int) :=
  match self.embeddings with
  | none => (query_mat.map (fun _ => []), query_mat.map (fun _ => []))
  | some E =>
    if E.length = 0 then (query_mat.map (fun _ => []), query_mat.map (fun _ => []))
    else
      let Q := query_mat.map (normalizeRow sq)
      let sims := Q.map (fun q => E.map (fun e => dotQ q e))
      let topk := sims.map (fun srow => (argsortDesc srow).take k)
      let D := (sims.zip topk).map (fun p => p.2.map (fun i => 1 - p.1.getD i 0))
      (D, topk.map (fun r => r.map (fun i => (i : Int))))

/-! ## `app.py`: generation oracle

`llm.generate` followed by `tokenizer.decode(..., skip_special_tokens=True)`
is external to the repository; it is modelled as an oracle list of decoded
outputs (text plus generated token count), consumed one entry per call.
Every call is recorded with a tag naming the call site. -/

/-- One decoded generation result: the decoded text and the number of
generated tokens. -/
structure GenOut where
  text : String
  tokens : Nat
  deriving Repr, DecidableEq

/-- The four `llm.generate` call sites reachable from `/llama-chat`. -/
inductive GenCallTag
  | translateEn   -- `_translate_with_llm_to_english` (lines 578-600)
  | mainGen       -- main generation (line 1691)
  | continuation  -- truncation continuation (line 1751)
  | translateHi   -- `_translate_with_llm_to_hindi` (lines 560-577)
  deriving Repr, DecidableEq

/-- Oracle state: pending outputs plus the trace of calls made so far. -/
structure GenState where
  pending : List GenOut
  calls : List GenCallTag
  deriving Repr, DecidableEq

/-- Perform one `llm.generate` + decode: consume the next oracle entry (empty
output if exhausted) and record the call. -/
def doGenerate (tag : GenCallTag) (st : GenState) : GenOut × GenState :=
  match st.pending with
  | [] => (⟨"", 0⟩, ⟨[], st.calls ++ [tag]⟩)
  | o :: rest => (o, ⟨rest, st.calls ++ [tag]⟩)

/-- `_translate_with_llm_to_english(src)` (lines 578-600): `None` without a
loaded model, otherwise one generation call whose decoded, stripped text is
returned. -/
def translate_with_llm_to_english (modelLoaded : Bool) (st : GenState) :
    Option String × GenState :=
  if modelLoaded then
    let g := doGenerate .translateEn st
    (some (pyStrip g.1.text), g.2)
  else (none, st)

/-- `_translate_with_llm_to_hindi(src)` (lines 560-577): same shape as the
English translator. -/
def translate_with_llm_to_hindi (modelLoaded : Bool) (st : GenState) :
    Option String × GenState :=
  if modelLoaded then
    let g := doGenerate .translateHi st
    (some (pyStrip g.1.text), g.2)
  else (none, st)

/-! ## `app.py`: request parsing helpers -/

/-- The pervasive Hindi test
`lang_hint and str(lang_hint).strip().lower().startswith('hi')`. -/
def isHi (langHint : String) : Bool :=
  langHint ≠ "" && pyStartsWith (pyLower (pyStrip langHint)) "hi"

/-- The JSON `fallback` field: absent, a boolean, or a string. -/
inductive FallbackField
  | absent
  | bool (b : Bool)
  | str (s : String)
  deriving Repr, DecidableEq

/-- `force_fallback` computation (lines 1310-1317): a boolean field is taken
as-is, a string field is truthy when it is `1`/`true`/`yes`, and the
`LLAMA_FORCE_FALLBACK` environment variable forces it on. -/
def forceFallbackOf (fb : FallbackField) (envForce : Bool) : Bool :=
  (match fb with
   | .absent => false
   | .bool b => b
   | .str s =>
       pyLower (pyStrip s) = "1" || pyLower (pyStrip s) = "true"
         || pyLower (pyStrip s) = "yes")
  || envForce

/-- Age-group normalization (lines 1330-1342): lower-case, map the child
synonyms to `kid`, and treat numeric ages up to 12 as `kid`. -/
def normalizeAge (ageGroup : Option String) : Option String :=
  match ageGroup with
  | none => none
  | some s =>
    let raw := pyStrip s
    let low := pyLower raw
    if low = "child" || low = "children" || low = "kids" || low = "kiddo" then some "kid"
    else
      match pyToInt raw with
      | some n => if n ≤ 12 then some "kid" else some low
      | none => some low

/-- Role-tag stripping from the prompt (lines 1349-1353). -/
def stripMarkers (p : String) : String :=
  pyReplace (pyReplace (pyReplace (pyReplace p "<User>:" "") "<Assistant>:" "") "User:" "")
    "Assistant:" ""

/-- The greeting shortcut test `simple in ("hi","hello","hey","yo","hola","namaste")`
(line 1417). -/
def isGreetingSimple (simple : String) : Bool :=
  simple = "hi" || simple = "hello" || simple = "hey" ||
  simple = "yo" || simple = "hola" || simple = "namaste"

/-! ## `app.py`: fallback text helpers (the post-`create_app` rebindings) -/

/-- `_is_chunk_readable(txt)` (lines 518-539): length, letter/digit/dash
ratios and terminal punctuation.  (Character classes are ASCII-accurate;
the chunks this is applied to are extracted English PDF text.) -/
def is_chunk_readable (txt : String) : Bool :=
  let s := pyStrip txt
  if s = "" then false
  else
    let n := s.length
    let letters := (s.data.filter Char.isAlpha).length
    let digits := (s.data.filter Char.isDigit).length
    let dashes := (s.data.filter (fun c => c == '-')).length
      + (s.data.filter (fun c => c == '—')).length
    let slashes := (s.data.filter (fun c => c == '/')).length
    let punct_ok := pyIn "." s || pyIn "!" s || pyIn "?" s
    if n < 60 then false
    else if ((letters : ℚ) / (max 1 n : Nat) : ℚ) < 1/2 then false
    else if ((digits : ℚ) / (max 1 n : Nat) : ℚ) > 1/4 then false
    else if (((dashes + slashes : Nat) : ℚ) / (max 1 n : Nat) : ℚ) > 1/25 then false
    else punct_ok

/-- `_clean_snippet(txt, max_len)` (lines 541-546): collapse whitespace and
truncate. -/
def clean_snippet (txt : String) (max_len : Nat) : String :=
  takeStr max_len (joinSep " " (pySplitWs txt))

/-- `_kid_story_fallback(topic, lang)` (post-`create_app` rebinding, lines
2066-2088; the computed `t` is unused by the returned strings). -/
def kid_story_fallback (_topic : String) (lang : String) : String :=
  if isHi lang then
    "यह बात मेरी स्थानीय नोट्स में साफ़ नहीं मिली, इसलिए एक छोटी-सी कहानी से समझाते हैं। एक शाम गंगा किनारे आशा और उसके चचेरे भाई रोहन ने चमकता पानी دیکھا।उन्हें कुछ प्लास्टिक कप तैरते दिखे, तो दोनों ने मिलकर उन्हें उठा लिया। पास के मछुआरे ने मुस्कराकर कहा, ‘जब हम नदी को साफ़ रखते हैं, तो मछलियाँ और डॉल्फ़िन स्वस्थ रहती हैं और हमारे शहर भी बेहतर बनते हैं।’ अगले दिन उनकी कक्षा ने एक छोटा-सा बोर्ड लगाया: ‘कचरा डस्टबिन में डालें — हमारी नदी हमारा परिवार।’ इतनी-सी पहल से घाट साफ़ दिखने लगा और दूसरे लोग भी मदद करने लगे। क्या मैं बच्चों के लिए एक छोटा-सा काम बताऊँ जो आप आज ही कर सकते हैं?"
  else
    "I couldn't find this in my local notes; here’s a simple story to explain it. One evening by the Ganga, Asha and her cousin Rohan watched the water sparkle near their ghat. They noticed a few plastic cups floating and decided to pick them up. A fisherman smiled and said, ‘When we keep the river clean, fish and dolphins stay healthy, and our towns do better too.’ Next day, their class put up a little sign: ‘Please use the dustbin — our river is family.’ That tiny action made the steps look nicer, and more people started helping. Would you like a tiny tip on how kids can care for the river?"

/-- The `_is_expand_request` closure inside `_conversational_fallback`
(lines 2110-2114). -/
def is_expand_request (txt : String) : Bool :=
  let t := pyStrip (pyLower txt)
  ["विस्तार", "और बताओ", "ज्यादा", "डिटेल", "विस्तृत", "और समझाओ", "थोड़ा और",
   "और जानकारी", "और बताइए"].any (fun k => pyIn k t)
  || ["expand", "elaborate", "more detail", "details", "continue", "tell me more",
      "go deeper"].any (fun k => pyIn k t)

/-- `_detailed_about(topic, age_group, lang)` (post-`create_app` rebinding,
lines 2233-2289): a deeper canned answer chosen by language and topic. -/
def detailed_about (topic : String) (_ageGroup : Option String) (lang : String) : String :=
  let t := pyStrip topic
  let lt := pyLower t
  if isHi lang then
    if pyIn "namami gange" lt || pyIn "namami ganga" lt || pyIn "नमामि गंगे" lt then
      "नमामि गंगे का उद्देश्य गंगा को दीर्घकाल तक स्वच्छ और अविरल बनाए रखना है। मुख्य कार्य: (1) सीवरेज शोधन संयंत्र (STP) का निर्माण और उन्नयन, (2) औद्योगिक अपशिष्ट पर नियंत्रण, (3) नदी सतह की सफाई और ठोस कचरा प्रबंधन, (4) जैव-विविधता संरक्षण और तटीय वृक्षारोपण, (5) जनभागीदारी और गंगा प्रहरी। उदाहरण: कानपुर/वाराणसी में नए STP से लाखों लीटर असंशोधित जल सीधे नदी में जाने से रुका। परिणाम: BOD/DO सूचक बेहतर हुए, डॉल्फ़िन/घड़ियाल आवास में सुधार दिखा, नदी तटीय सौंदर्यीकरण से पर्यटन बढ़ा। आप चाहें तो मैं किसी एक शहर की परियोजना का संक्षिप्त केस-स्टडी भी बता सकता हूँ।"
    else if pyIn "ganga" lt || pyIn "ganges" lt || pyIn "गंगा" lt then
      "गंगा हिमालय से निकलकर मैदानों से होती हुई बंगाल की खाड़ी तक जाती है। यह कृषि, पेयजल, नौवहन और आस्था—सबकी केंद्र है। चुनौतियाँ: शहरी/औद्योगिक अपशिष्ट, असंगठित ठोस कचरा, तटीय क्षरण, जल-प्रवाह में कमी। समाधान: उपचारित सीवरेज का पुनः उपयोग, वर्षा-जल संचयन, जल-मित्र कृषि, तटीय हरियाली, और समुदाय-आधारित निगरानी। क्या मैं किसी एक चुनौती (जैसे औद्योगिक प्रदूषण) पर गहराई से समझाऊँ?"
    else
      t ++ " को आसान भाषा में विस्तार से समझें: परिभाषा, 3–4 मुख्य बिंदु, एक छोटा उदाहरण, और करने योग्य कदम। बताइए किस हिस्से पर और गहराई चाहिए—कारण, प्रभाव, नीतियाँ या ज़मीनी उदाहरण?"
  else
    if pyIn "namami gange" lt || pyIn "namami ganga" lt then
      "Namami Gange aims for long-term river health: (1) STP build/upgrade, (2) industrial effluent control, (3) surface cleaning & solid waste, (4) biodiversity & riparian plantations, (5) public participation (Ganga Praharis). Example: new STPs in Kanpur/Varanasi curbed untreated discharge. Outcomes: improved BOD/DO, better habitats, cleaner ghats and tourism. I can share a short case study for any one city."
    else if pyIn "ganga" lt || pyIn "ganges" lt then
      "The Ganga runs from the Himalayas to the Bay of Bengal—vital for farms, drinking water, transport, and culture. Challenges: urban/industrial discharge, unmanaged solid waste, bank erosion, reduced flows. Solutions: treated reuse, rainwater harvesting, water-smart farming, riparian greens, community monitoring. Want me to dive deeper into one challenge (e.g., industrial pollution)?"
    else
      "Here’s a deeper look at " ++ t ++ ": definition, 3–4 pillars, one example, and next steps. Tell me which part to expand further."

/-- The greeting set of `_conversational_fallback` (line 2117). -/
def fallbackGreetings : List String :=
  ["hi", "hello", "hey", "yo", "hola", "namaste", "hi!", "hello!", "hey!", "नमस्ते", "नमस्ते!"]

/-- `_conversational_fallback(topic, name, age_group, history, lang)`
(post-`create_app` rebinding, lines 2089-2208): the heuristic templated
answer used whenever the LLM is skipped or fails. -/
def conversational_fallback (topic : String) (name : Option String)
    (ageGroup : Option String) (history : List (String × String))
    (lang : String) : String :=
  let t := pyStrip topic
  let nameTruthy : Bool := match name with | some s => s != "" | none => false
  let nm := pyStrip (pyOrStr name (some "friend"))
  let ag : Option String :=
    let s := pyLower (pyStrip (match ageGroup with | some a => a | none => ""))
    if s = "" then none else some s
  let lt := pyLower t
  let last_user : Option String :=
    ((takeLast 6 history).reverse.find? (fun m => m.1 = "user" || m.1 = "User")).map
      (fun m => pyStrip m.2)
  if fallbackGreetings.contains lt
      || fallbackGreetings.any (fun g => pyStartsWith lt (g ++ " ")) then
    if isHi lang then
      (if nameTruthy then "नमस्ते " ++ nm ++ "!" else "नमस्ते!")
        ++ " मैं चाचा हूँ। आज हम क्या जानें — गंगा, नमामि गंगे, या कुछ और?"
    else
      (if nameTruthy then "Hey " ++ nm ++ "!" else "Hey there!")
        ++ " I’m ChaCha. Great to see you. What should we explore today — the Ganga, Namami Gange, or something else you’re curious about?"
  else if pyIn "namami gange" lt || pyIn "namami ganga" lt then
    if isHi lang then
      (if nameTruthy then "हाय " ++ nm ++ ", " else "")
        ++ "नमामि गंगे गंगा की सफाई और संरक्षण के लिए भारत का मिशन है — सीवरेज ट्रीटमेंट बनाना, प्रदूषण कम करना, आवास बहाल करना और जनभागीदारी बढ़ाना। क्या किसी शहर की वास्तविक परियोजना का छोटा उदाहरण बताऊँ?"
    else
      (if nameTruthy then "Hi " ++ nm ++ ", " else "")
        ++ "Namami Gange is India’s mission to clean and protect the Ganga — building sewage treatment, reducing pollution, restoring habitats, and involving people. Want a quick example from a real city project?"
  else if pyIn "river ganga" lt || pyIn "ganga river" lt || pyIn "ganges" lt || pyIn "गंगा" lt then
    if isHi lang then
      (if nameTruthy then "हाय " ++ nm ++ ", " else "")
        ++ "गंगा करोड़ों लोगों की जीवनरेखा है — कईयों के लिए पवित्र, खेती और शहरों के लिए आवश्यक, और गंगेटिक डॉल्फ़िन जैसे अनोखे जीवों का घर। क्या हम वन्यजीव, संस्कृति या नदी को स्वस्थ रखने के तरीक़ों पर बात करें?"
    else
      (if nameTruthy then "Hi " ++ nm ++ ", " else "")
        ++ "The Ganga is a lifeline for millions — sacred to many, vital for farms and cities, and home to unique wildlife like the Ganges river dolphin. Should we talk about wildlife, culture, or how the river is kept healthy?"
  else if is_expand_request lt then
    let lu := match last_user with | some s => s | none => ""
    let base := if lu ≠ "" && lu ≠ t then lu else (if lu ≠ "" then lu else t)
    detailed_about (if base ≠ "" then base else t) ag lang
  else
    let lu := match last_user with | some s => s | none => ""
    let continuity :=
      if lu ≠ "" && lu ≠ t && lu.length > 3 then "You mentioned earlier: '" ++ lu ++ "'. " else ""
    let continuity_hi :=
      if lu ≠ "" && lu ≠ t && lu.length > 3 then "आपने पहले यही पूछा था। " else ""
    let follow := "Does that help, or should I go deeper with a short example?"
    let follow_hi := "क्या यह मददगार है, या एक छोटा उदाहरण देकर और विस्तार करूँ?"
    if ag = some "kid" then
      if isHi lang then
        "हाय " ++ nm ++ ", मैं " ++ t ++ " के बारे में आसान शब्दों में समझाता हूँ। "
          ++ continuity_hi ++ "मैं इसे छोटा और दोस्ताना रखूँगा ताकि आसानी से याद रहे। " ++ follow_hi
      else
        "Hi " ++ nm ++ ", here’s the idea about " ++ t ++ " in simple words you can follow. "
          ++ continuity ++ "I’ll keep it short and friendly so it’s easy to remember. " ++ follow
    else
      if isHi lang then
        t ++ " की मूल बातें — साफ़ और संक्षेप में। " ++ continuity_hi ++ follow_hi
      else
        "Here’s the gist of " ++ t ++ ": clear and to the point. " ++ continuity ++ follow

/-! ## `app.py`: the `/llama-chat` handler -/

/-- The JSON request body of `/llama-chat` / `/llama-chat-stream` (the fields
the handlers read; the near-duplicate alias keys such as `agegroup`,
`isWelcome` or `username` are folded into one field each). -/
structure ChatRequest where
  prompt : Option String
  lang : Option String
  locale : Option String
  fallback : FallbackField
  ageGroup : Option String
  name : Option String
  history : List (String × String)
  welcome : Option Bool

/-- The environment-variable configuration the modelled paths read.
`welcomeTrigger` is `WELCOME_TRIGGER_TEXT` after the module-level
`.strip().lower()`; `maxNewTokens` summarizes the `LLAMA_MAX_NEW_TOKENS` /
speed-preset / age-group token-budget computation (lines 1599-1650), which
only feeds the truncation test in the modelled paths. -/
structure Env where
  forceFallbackEnv : Bool
  allowFallbackWithoutRag : Bool
  welcomeTrigger : String
  welcomeMessage : String
  ragContextChars : Nat
  maxNewTokens : Nat

/-- The module-level state of `app.py` the handlers read: whether the RAG
components imported (`embedder`/`index`/`chunks` all non-`None`), whether
the tokenizer and model loaded, the chunk list, and the index search
function (`SimpleIndex.search` or a FAISS index, both of this signature). -/
structure SysState where
  ragInit : Bool
  tokenizerLoaded : Bool
  llmLoaded : Bool
  chunks : List String
  embedDim : Nat
  sqrtF : ℚ → ℚ
  search : List (List ℚ) → Nat → List (List ℚ) × List (List Int)

/-- The JSON response body: `none` marks an absent key; for `rag_score`,
`some none` is the key present with value `null`.  The numeric tuning echoes
(`temperature`, `top_p`, `used_max_new_tokens`, `latency_ms`) are omitted:
no modelled property reads them. -/
structure JsonBody where
  error : Option String
  result : Option String
  retrieved_count : Option Nat
  rag_score : Option (Option ℚ)
  source : Option String
  wants_long : Option Bool
  llm_used : Option Bool
  deriving Repr, DecidableEq

/-- The body with every key absent. -/
def emptyBody : JsonBody := ⟨none, none, none, none, none, none, none⟩

/-- An HTTP result: status code plus JSON body. -/
structure HttpResponse where
  status : Nat
  body : JsonBody
  deriving Repr, DecidableEq

/-- The retrieval outcome of one request: the chunk texts kept, the derived
reliability score, and the reliability classification. -/
structure RetrievalInfo where
  retrieved : List String
  score : Option ℚ
  reliable : Bool
  deriving Repr, DecidableEq

/-- Trace of one handler run: the `llm.generate` calls made, and the
retrieval outcome when the run reached the retrieval stage. -/
structure RunTrace where
  calls : List GenCallTag
  retrieval : Option RetrievalInfo
  deriving Repr, DecidableEq

/-- The derived reliability score (lines 1439-1448): from the top-1 distance
`D[0][0]`, clamp `1 - d0` on `[0,1]`, clamp `1 - d0/2` on `[0,2]`, otherwise
leave the score `None`. -/
def ragScoreOf (D : List (List ℚ)) : Option ℚ :=
  match D with
  | (d0 :: _) :: _ =>
      if 0 ≤ d0 ∧ d0 ≤ 1 then some (pyMax 0 (pyMin 1 (1 - d0)))
      else if 0 ≤ d0 ∧ d0 ≤ 2 then some (pyMax 0 (pyMin 1 (1 - d0 / 2)))
      else none
  | _ => none

/-- `rag_reliable = bool(retrieved_chunks) and (rag_score is not None and rag_score >= 0.70)`
(line 1450). -/
def ragReliableOf (retrieved : List String) (score : Option ℚ) : Bool :=
  (!retrieved.isEmpty) &&
    (match score with
     | some s => decide ((7 : ℚ)/10 ≤ s)
     | none => false)

/-- `retrieved_chunks = [chunks[i] for i in I[0] if 0 <= i < len(chunks)]`
(lines 1437 and 1882): keep only in-range indices, then look the chunks up. -/
def retrievedChunksOf (chunks : List String) (I0 : List Int) : List String :=
  (I0.filter (fun i => 0 ≤ i && i < (chunks.length : Int))).map
    (fun i => chunks.getD i.toNat "")

/-- Context assembly and truncation (lines 1451-1455). -/
def contextOf (maxChars : Nat) (retrieved : List String) : String :=
  let context := if retrieved.isEmpty then "" else joinSep "\n\n---\n\n" retrieved
  if context.length > maxChars then takeStr maxChars context ++ "\n[context truncated]"
  else context

/-- The forced/model-missing fallback result (lines 1539-1585): try a
snippet-based answer from the top retrieved chunk, else the kid story or the
conversational fallback.  The empty string stands for Python's
`result = None` (`if not result:` treats both alike, and every produced
template is non-empty). -/
def fallback_result (retrieved : List String) (reliable : Bool)
    (ageGroup : Option String) (langHint prompt2 : String)
    (userName : Option String) (history : List (String × String)) : String :=
  let ag := match ageGroup with | some a => a | none => ""
  let viaChunks : String :=
    match retrieved with
    | [] => ""
    | top0 :: _ =>
      let top := pyStrip top0
      let readable := is_chunk_readable top
      if ag = "kid" then
        if reliable && readable then
          if isHi langHint then
            "मैं इसे एक छोटे उदाहरण या कहानी से समझा सकता हूँ — क्या आप चाहेंगे?"
          else
            "Based on our local notes: " ++ clean_snippet top 350
              ++ "\n\nWould you like a short story or a simple example next?"
        else kid_story_fallback prompt2 langHint
      else
        if reliable && readable then
          if isHi langHint then
            "हमारी स्थानीय नोट्स के आधार पर जानकारी उपलब्ध है। क्या मैं इसे आगे बढ़ाकर एक छोटा उदाहरण दूँ?"
          else
            "Based on our local notes: " ++ clean_snippet top 350
              ++ "\n\nWant me to expand or give a quick example?"
        else if readable then
          if isHi langHint then
            "यह बात मेरी स्थानीय नोट्स में साफ़ नहीं मिली। चाहें तो मैं सामान्य रूप से संक्षेप में समझा दूँ?"
          else
            "I couldn't find this clearly in my local notes; here’s what I do have: "
              ++ clean_snippet top 350 ++ "\n\nIf helpful, I can give a broader general explanation."
        else ""
  if viaChunks = "" then
    if ag = "kid" then kid_story_fallback prompt2 langHint
    else conversational_fallback prompt2 userName ageGroup history langHint
  else viaChunks

/-- The generation path of `/llama-chat` (lines 1599-1837) once retrieval is
done and neither forced fallback nor a missing model applies: one main
generation, at most one continuation when the output looks truncated, the
conversational fallback when decoding stays empty, and the Hindi
post-translation.  Decoding and the echo-cleanup of lines 1694-1713 are
absorbed into the oracle text; the sampling configuration is omitted (the
token budget survives as `env.maxNewTokens`, feeding the truncation test). -/
def generate_phase (env : Env) (st2 : GenState) (prompt2 langHint : String)
    (forceFallback modelMissing : Bool) (ageGroup userName : Option String)
    (history : List (String × String)) (retrieved : List String)
    (score : Option ℚ) (reliable : Bool) : HttpResponse × RunTrace :=
  let g1 := doGenerate .mainGen st2
  let result1 := g1.1.text
  let trunc :=
    (env.maxNewTokens ≠ 0 && decide ((g1.1.tokens : Int) ≥ (env.maxNewTokens : Int) - 2))
    || (result1 ≠ ""
         && !((lastChar result1).getD ' ' == '.' || (lastChar result1).getD ' ' == '!'
               || (lastChar result1).getD ' ' == '?')
         && result1.length > 40)
  let doCont := trunc && !(forceFallback || modelMissing)
  let g2 := if doCont then doGenerate .continuation g1.2 else (⟨"", 0⟩, g1.2)
  let result2 :=
    if doCont then
      (if pyStrip g2.1.text ≠ "" then pyStrip (result1 ++ " " ++ pyStrip g2.1.text)
       else result1)
    else result1
  let st3 := g2.2
  let result3 :=
    if result2 = "" then conversational_fallback prompt2 userName ageGroup history langHint
    else result2
  let tr :=
    if isHi langHint then translate_with_llm_to_hindi (!modelMissing) st3
    else (none, st3)
  let result4 := match tr.1 with | some t => if t ≠ "" then t else result3 | none => result3
  (⟨200, { emptyBody with
      result := some result4,
      retrieved_count := some retrieved.length,
      rag_score := some score,
      source := some (if reliable then "rag" else "general"),
      wants_long := some false,
      llm_used := some (!(forceFallback || modelMissing)) }⟩,
   ⟨tr.2.calls, some ⟨retrieved, score, reliable⟩⟩)

/-- The retrieval stage of `/llama-chat` (lines 1432-1455) followed by the
forced/model-missing fallback return (lines 1537-1597) or the generation
path. -/
def retrieval_phase (env : Env) (sys : SysState) (st1 : GenState)
    (prompt2 langHint : String) (forceFallback modelMissing : Bool)
    (ageGroup userName : Option String) (history : List (String × String)) :
    HttpResponse × RunTrace :=
  let queryMat := [hash_embed sys.sqrtF prompt2 sys.embedDim]
  let DI := sys.search queryMat 3
  let retrieved := retrievedChunksOf sys.chunks (DI.2.headD [])
  let score := ragScoreOf DI.1
  let reliable := ragReliableOf retrieved score
  let _context := contextOf env.ragContextChars retrieved
  if forceFallback || modelMissing then
    (⟨200, { emptyBody with
        result := some (fallback_result retrieved reliable ageGroup langHint prompt2 userName history),
        retrieved_count := some retrieved.length,
        rag_score := some score,
        source := some (if reliable then "rag" else "general"),
        wants_long := some false }⟩,
     ⟨st1.calls, some ⟨retrieved, score, reliable⟩⟩)
  else
    generate_phase env st1 prompt2 langHint forceFallback modelMissing ageGroup
      userName history retrieved score reliable

/-- `data.get("prompt")` as the string the handlers test with `if not prompt:`
(an absent key behaves like the empty string there). -/
def promptField (req : ChatRequest) : String :=
  match req.prompt with | some p => p | none => ""

/-- `lang_hint = (data.get('lang') or data.get('locale') or '').strip()`
(line 1309). -/
def langHintOf (req : ChatRequest) : String := pyStrip (pyOrStr req.lang req.locale)

/-- The Hindi pre-translation step of `/llama-chat` (lines 1355-1364): when
the language hint starts with `hi`, translate the prompt to English with the
LLM and keep the translation when it is non-empty. -/
def maybeTranslatePrompt (hindi modelLoaded : Bool) (prompt1 : String)
    (st0 : GenState) : String × GenState :=
  if hindi then
    let tr := translate_with_llm_to_english modelLoaded st0
    (match tr.1 with | some t => if t ≠ "" then t else prompt1 | none => prompt1, tr.2)
  else (prompt1, st0)

/-- The POST `/llama-chat` handler (lines 1288-1840): RAG-initialization
guard, request parsing, missing-prompt guard, Hindi pre-translation, the
welcome and greeting shortcuts, then retrieval and response.  TTS side
effects and the top-level exception wrapper are not modelled (the model
raises no exceptions). -/
def llama_chat (env : Env) (sys : SysState) (oracle : List GenOut)
    (req : ChatRequest) : HttpResponse × RunTrace :=
  if !sys.ragInit && !env.allowFallbackWithoutRag then
    (⟨503, { emptyBody with error := some "RAG components not initialized" }⟩, ⟨[], none⟩)
  else
    let modelMissing := !(sys.tokenizerLoaded && sys.llmLoaded)
    let langHint := langHintOf req
    let forceFallback := forceFallbackOf req.fallback env.forceFallbackEnv
    let ageGroup := normalizeAge req.ageGroup
    let userName := req.name.map pyStrip
    let prompt0 := promptField req
    if prompt0 = "" then
      (⟨400, { emptyBody with error := some "No prompt provided" }⟩, ⟨[], none⟩)
    else
      let prompt1 := stripMarkers prompt0
      let pr := maybeTranslatePrompt (isHi langHint) (!modelMissing) prompt1 ⟨oracle, []⟩
      let prompt2 := pr.1
      let st1 := pr.2
      let history := takeLast 12 req.history
      let simple := pyLower (pyStrip prompt2)
      let isWelcome :=
        (match req.welcome with | some b => b | none => false)
        || (pyNorm simple == pyNorm env.welcomeTrigger)
      if isWelcome then
        (⟨200, { emptyBody with
            result := some env.welcomeMessage,
            retrieved_count := some 0,
            rag_score := some none,
            source := some "general",
            wants_long := some false,
            llm_used := some false }⟩,
         ⟨st1.calls, none⟩)
      else if isGreetingSimple simple
          && !((match ageGroup with | some a => a | none => "") = "kid"
                && !(forceFallback || modelMissing)) then
        (⟨200, { emptyBody with
            result := some (conversational_fallback prompt2 userName ageGroup history langHint),
            retrieved_count := some 0,
            wants_long := some false }⟩,
         ⟨st1.calls, none⟩)
      else
        retrieval_phase env sys st1 prompt2 langHint forceFallback modelMissing
          ageGroup userName history

/-- The POST `/llama-chat-stream` handler (lines 1842-2049) up to and
including retrieval: missing-prompt guard first, then the RAG guard, then
the same retrieval computation as `/llama-chat`.  The NDJSON streaming of
the external LLM output is not modelled; the 200 response carries the
metadata of the terminating `done` line (which reports the retrieval
outcome). -/
def llama_chat_stream (env : Env) (sys : SysState) (req : ChatRequest) :
    HttpResponse × RunTrace :=
  let prompt0 := promptField req
  if prompt0 = "" then
    (⟨400, { emptyBody with error := some "No prompt provided" }⟩, ⟨[], none⟩)
  else if !sys.ragInit && !env.allowFallbackWithoutRag then
    (⟨503, { emptyBody with error := some "RAG components not initialized" }⟩, ⟨[], none⟩)
  else
    let queryMat := [hash_embed sys.sqrtF prompt0 sys.embedDim]
    let DI := sys.search queryMat 3
    let retrieved := retrievedChunksOf sys.chunks (DI.2.headD [])
    let score := ragScoreOf DI.1
    let reliable := ragReliableOf retrieved score
    (⟨200, { emptyBody with
        retrieved_count := some retrieved.length,
        rag_score := some score,
        source := some (if reliable then "rag" else "general") }⟩,
     ⟨[], some ⟨retrieved, score, reliable⟩⟩)

/-- The default environment of `app.py` (module constants, lines 174-188,
with no overriding environment variables; `maxNewTokens` is the CPU
`balanced` preset of line 1618). -/
def defaultEnv : Env :=
  { forceFallbackEnv := false
    allowFallbackWithoutRag := false
    welcomeTrigger := "hello, i'm interested in learning about the namami gange programme."
    welcomeMessage := "Namaste! I’m ChaCha. I can help you explore the Namami Gange Programme — what it is, how it cleans the Ganga, real projects in cities, and simple ways you can help. Ask me anything, or say ‘give me a quick overview’."
    ragContextChars := 1200
    maxNewTokens := 72 }

/-! ## Concrete instances used by witnesses -/

/-- A function with the square-root properties the theorems assume
(vanishing exactly at zero on nonnegatives). -/
def sqW : ℚ → ℚ := fun x => if x = 0 then 0 else 1

/-- `sqW` satisfies the square-root zero law. -/
theorem sqW_zero_iff : ∀ x : ℚ, 0 ≤ x → (sqW x = 0 ↔ x = 0) := by
  intro x _
  unfold sqW
  split
  · simp_all
  · simp_all

/-- System state with RAG loaded but no model; the index search finds one
close chunk (distance `1/10`). -/
def sysRagOnly : SysState :=
  { ragInit := true, tokenizerLoaded := false, llmLoaded := false,
    chunks := ["c0"], embedDim := 2, sqrtF := sqW,
    search := fun _ _ => ([[1/10]], [[0]]) }

/-- System state with RAG and model loaded; the index search reports a top-1
distance of `3` (outside `[0,2]`). -/
def sysFarIndex : SysState :=
  { ragInit := true, tokenizerLoaded := true, llmLoaded := true,
    chunks := ["c0"], embedDim := 2, sqrtF := sqW,
    search := fun _ _ => ([[3]], [[0]]) }

/-- System state whose RAG components failed to import. -/
def sysNoRag : SysState :=
  { ragInit := false, tokenizerLoaded := true, llmLoaded := true,
    chunks := [], embedDim := 2, sqrtF := sqW,
    search := fun _ _ => ([], []) }

/-- System state with RAG loaded, no tokenizer, empty corpus. -/
def sysNoTokenizer : SysState :=
  { ragInit := true, tokenizerLoaded := false, llmLoaded := true,
    chunks := [], embedDim := 2, sqrtF := sqW,
    search := fun _ _ => ([[]], [[]]) }

/-- A plain informational request. -/
def reqPollution : ChatRequest :=
  { prompt := some "pollution", lang := none, locale := none, fallback := .absent,
    ageGroup := none, name := none, history := [], welcome := none }

/-- A forced-fallback request. -/
def reqPollutionFallback : ChatRequest :=
  { prompt := some "pollution", lang := none, locale := none, fallback := .bool true,
    ageGroup := none, name := none, history := [], welcome := none }

/-- A Hindi request with `fallback=true`. -/
def reqHindiFallback : ChatRequest :=
  { prompt := some "ganga pollution", lang := some "hi-IN", locale := none,
    fallback := .bool true, ageGroup := none, name := none, history := [], welcome := none }

/-- The request of the kid-greeting scenario: prompt `"hello"`,
`ageGroup="kid"`. -/
def reqHelloKid : ChatRequest :=
  { prompt := some "hello", lang := none, locale := none, fallback := .absent,
    ageGroup := some "kid", name := none, history := [], welcome := none }

/-- A request whose body has no `prompt` key. -/
def reqNoPrompt : ChatRequest :=
  { prompt := none, lang := none, locale := none, fallback := .absent,
    ageGroup := none, name := none, history := [], welcome := none }

/-! ## Helper lemmas -/

section RatReducible

/- Batteries marks the `Rat` arithmetic operations `@[irreducible]`; re-allow
unfolding locally so that witnesses over concrete rationals can be settled
by `decide`. -/
attribute [local semireducible] Rat.add Rat.sub Rat.mul Rat.inv Rat.ofScientific

theorem pyMax_eq_max (a b : ℚ) : pyMax a b = max a b := by
  unfold pyMax
  rcases lt_or_ge a b with h | h
  · rw [if_pos h, max_eq_right h.le]
  · rw [if_neg (not_lt.mpr h), max_eq_left h]

theorem pyMin_eq_min (a b : ℚ) : pyMin a b = min a b := by
  unfold pyMin
  rcases lt_or_ge b a with h | h
  · rw [if_pos h, min_eq_right h.le]
  · rw [if_neg (not_lt.mpr h), min_eq_left h]

theorem pyClamp01 (x : ℚ) : 0 ≤ pyMax 0 (pyMin 1 x) ∧ pyMax 0 (pyMin 1 x) ≤ 1 := by
  unfold pyMax pyMin
  split_ifs <;> constructor <;> linarith

theorem sumSq_replicate_zero (n : Nat) : sumSq (List.replicate n (0 : ℚ)) = 0 := by
  induction n with
  | zero => rfl
  | succ k ih => simpa [sumSq, List.replicate_succ] using ih

theorem ragReliable_iff (r : List String) (s : Option ℚ) :
    ragReliableOf r s = true ↔ r ≠ [] ∧ ∃ v, s = some v ∧ (7 : ℚ)/10 ≤ v := by
  cases s with
  | none => simp [ragReliableOf]
  | some v => simp [ragReliableOf, List.isEmpty_iff]

/-! ## Claims about `rag_utils.py` -/

/-- C7: `hash_embed` is deterministic — two calls on the same text and
dimension (and the same square-root primitive) return identical vectors.
The embedding is a pure function of its arguments; the source uses only
`hashlib.sha1`, integer arithmetic and NumPy array operations, none of
which reads external state. -/
theorem hash_embed_deterministic (sq : ℚ → ℚ) (t1 t2 : String) (d1 d2 : Nat)
    (h1 : t1 = t2) (h2 : d1 = d2) :
    hash_embed sq t1 d1 = hash_embed sq t2 d2 := by
  rw [h1, h2]

/-- Witness for C7: the two calls agree on the concrete input `"ganga"` at
dimension 8. -/
theorem hash_embed_deterministic_witness :
    hash_embed sqW "ganga" 8 = hash_embed sqW "ganga" 8 :=
  hash_embed_deterministic sqW "ganga" "ganga" 8 8 rfl rfl

/-- C5: `hash_embed` on the empty string is the all-zero vector of the
requested dimension (its squared L2 norm is 0), and `SimpleIndex.search`
never divides by zero: each query row is divided by
`fixNorm (rowNorm sq row)`, which is non-zero, and a zero-norm row
(squared norm 0) gets divisor 1 — the `norms[norms == 0] = 1.0` guard.
The search also returns one result row per query row instead of raising.
`sq` is any function with the zero law of the real square root. -/
theorem hash_embed_empty_search_safe (sq : ℚ → ℚ)
    (hz : ∀ x : ℚ, 0 ≤ x → (sq x = 0 ↔ x = 0)) :
    (∀ dim, hash_embed sq "" dim = List.replicate dim 0)
    ∧ sumSq (hash_embed sq "" 384) = 0
    ∧ (∀ row : List ℚ, fixNorm (rowNorm sq row) ≠ 0)
    ∧ (∀ row : List ℚ, sumSq row = 0 → fixNorm (rowNorm sq row) = 1)
    ∧ (∀ (E Qm : List (List ℚ)) (k : Nat),
        ((SimpleIndex.mk (some E)).search sq Qm k).1.length = Qm.length) := by
  have hsq0 : sq 0 = 0 := (hz 0 le_rfl).mpr rfl
  have hempty : ∀ dim, hash_embed sq "" dim = List.replicate dim 0 := by
    intro dim
    unfold hash_embed
    have hsplit : pySplitWs "" = [] := rfl
    rw [hsplit]
    simp only [List.foldl_nil, sumSq_replicate_zero, hsq0]
    rw [if_neg (lt_irrefl 0)]
  refine ⟨hempty, ?_, ?_, ?_, ?_⟩
  · rw [hempty 384]; exact sumSq_replicate_zero 384
  · intro row
    unfold fixNorm
    split
    · exact one_ne_zero
    · assumption
  · intro row hrow
    unfold fixNorm rowNorm
    rw [hrow, hsq0]
    simp
  · intro E Qm k
    unfold SimpleIndex.search
    simp only []
    split
    · simp
    · simp

/-- Witness for C5: the zero law is discharged for the concrete function
`sqW`, and the theorem evaluates `hash_embed` of the empty string at
dimension 4 to the zero vector. -/
theorem hash_embed_empty_search_safe_witness :
    (∀ x : ℚ, 0 ≤ x → (sqW x = 0 ↔ x = 0))
    ∧ hash_embed sqW "" 4 = List.replicate 4 0
    ∧ fixNorm (rowNorm sqW [0, 0]) = 1 :=
  ⟨sqW_zero_iff,
   (hash_embed_empty_search_safe sqW sqW_zero_iff).1 4,
   (hash_embed_empty_search_safe sqW sqW_zero_iff).2.2.2.1 [0, 0] (by norm_num [sumSq])⟩

/-- C6: `SimpleIndex.search` on an index whose embedding matrix is `None` or
has zero rows returns, for any query matrix with `q` rows and any `k`, a
distance array and an index array of shape `(q, 0)`: `q` rows each, all
empty. -/
theorem SimpleIndex_search_empty (sq : ℚ → ℚ) (idx : SimpleIndex)
    (Qm : List (List ℚ)) (k : Nat)
    (h : idx.embeddings = none ∨ ∃ E, idx.embeddings = some E ∧ E.length = 0) :
    ((idx.search sq Qm k).1.length = Qm.length)
    ∧ ((idx.search sq Qm k).2.length = Qm.length)
    ∧ (∀ row ∈ (idx.search sq Qm k).1, row = ([] : List ℚ))
    ∧ (∀ row ∈ (idx.search sq Qm k).2, row = ([] : List Int)) := by
  obtain ⟨emb⟩ := idx
  rcases h with h | ⟨E, hE, hlen⟩
  · simp only at h
    subst h
    simp [SimpleIndex.search]
  · simp only at hE
    subst hE
    simp [SimpleIndex.search, hlen]

/-- Witness for C6: a concrete zero-row index (`some []`) searched with a
two-row query matrix yields two empty rows in each output. -/
theorem SimpleIndex_search_empty_witness :
    ((SimpleIndex.mk (some [])).embeddings = none
      ∨ ∃ E, (SimpleIndex.mk (some [])).embeddings = some E ∧ E.length = 0)
    ∧ ((SimpleIndex.mk (some [])).search sqW [[1, 2], [3, 4]] 3).1.length = 2
    ∧ (∀ row ∈ ((SimpleIndex.mk (some [])).search sqW [[1, 2], [3, 4]] 3).1,
        row = ([] : List ℚ)) :=
  have h : (SimpleIndex.mk (some ([] : List (List ℚ)))).embeddings = none
      ∨ ∃ E, (SimpleIndex.mk (some ([] : List (List ℚ)))).embeddings = some E ∧ E.length = 0 :=
    Or.inr ⟨[], rfl, rfl⟩
  ⟨h,
   (SimpleIndex_search_empty sqW (SimpleIndex.mk (some [])) [[1, 2], [3, 4]] 3 h).1,
   (SimpleIndex_search_empty sqW (SimpleIndex.mk (some [])) [[1, 2], [3, 4]] 3 h).2.2.1⟩

/-- C2: from a top-1 distance `d0`, the derived reliability score equals
`max(0, min(1, 1 - d0))` when `0 ≤ d0 ≤ 1`, equals
`max(0, min(1, 1 - d0/2))` when `1 < d0 ≤ 2`, and whenever it is not `None`
it lies in `[0, 1]`. -/
theorem ragScore_formula (d0 : ℚ) (rest : List ℚ) (rows : List (List ℚ)) :
    (0 ≤ d0 → d0 ≤ 1 →
      ragScoreOf ((d0 :: rest) :: rows) = some (max 0 (min 1 (1 - d0))))
    ∧ (1 < d0 → d0 ≤ 2 →
      ragScoreOf ((d0 :: rest) :: rows) = some (max 0 (min 1 (1 - d0 / 2))))
    ∧ (∀ s, ragScoreOf ((d0 :: rest) :: rows) = some s → 0 ≤ s ∧ s ≤ 1) := by
  refine ⟨?_, ?_, ?_⟩
  · intro h0 h1
    show (if 0 ≤ d0 ∧ d0 ≤ 1 then some (pyMax 0 (pyMin 1 (1 - d0)))
      else if 0 ≤ d0 ∧ d0 ≤ 2 then some (pyMax 0 (pyMin 1 (1 - d0 / 2))) else none)
      = some (max 0 (min 1 (1 - d0)))
    rw [if_pos ⟨h0, h1⟩, pyMax_eq_max, pyMin_eq_min]
  · intro h1 h2
    show (if 0 ≤ d0 ∧ d0 ≤ 1 then some (pyMax 0 (pyMin 1 (1 - d0)))
      else if 0 ≤ d0 ∧ d0 ≤ 2 then some (pyMax 0 (pyMin 1 (1 - d0 / 2))) else none)
      = some (max 0 (min 1 (1 - d0 / 2)))
    rw [if_neg (fun hc => absurd h1 (not_lt.mpr hc.2)),
        if_pos ⟨le_of_lt (lt_of_le_of_lt zero_le_one h1), h2⟩,
        pyMax_eq_max, pyMin_eq_min]
  · intro s hs
    have hs2 : (if 0 ≤ d0 ∧ d0 ≤ 1 then some (pyMax 0 (pyMin 1 (1 - d0)))
      else if 0 ≤ d0 ∧ d0 ≤ 2 then some (pyMax 0 (pyMin 1 (1 - d0 / 2))) else none)
      = some s := hs
    clear hs
    split_ifs at hs2
    all_goals (rw [Option.some.injEq] at hs2; subst hs2; exact pyClamp01 _)

/-- Witness for C2: the three parts evaluated at the concrete distances
`1/2` (first regime) and `3/2` (second regime). -/
theorem ragScore_formula_witness :
    ragScoreOf [[(1 : ℚ)/2]] = some (max 0 (min 1 (1 - 1/2)))
    ∧ ragScoreOf [[(3 : ℚ)/2]] = some (max 0 (min 1 (1 - (3/2) / 2)))
    ∧ (0 ≤ (1 : ℚ)/2 ∧ (1 : ℚ)/2 ≤ 1) :=
  ⟨(ragScore_formula (1/2) [] []).1 (by norm_num) (by norm_num),
   (ragScore_formula (3/2) [] []).2.1 (by norm_num) (by norm_num),
   (ragScore_formula (1/2) [] []).2.2 (1/2) (by decide)⟩

/-- C10: the retrieved-chunk list of both handlers is built by
`retrievedChunksOf`, which keeps exactly the returned indices `i` with
`0 ≤ i < len(chunks)`: every surviving index is in range, every returned
chunk is an element of the chunk list, and no more chunks are returned
than indices were given — so the lookup never reads out of range even on
sentinel indices such as `-1`. -/
theorem retrievedChunks_safe (chunks : List String) (I0 : List Int) :
    ((I0.filter (fun i => 0 ≤ i && i < (chunks.length : Int))).all
        (fun i => decide (i.toNat < chunks.length))) = true
    ∧ ((retrievedChunksOf chunks I0).all (fun c => chunks.contains c)) = true
    ∧ (retrievedChunksOf chunks I0).length ≤ I0.length := by
  have hmem : ∀ i ∈ I0.filter (fun i => 0 ≤ i && i < (chunks.length : Int)),
      i.toNat < chunks.length := by
    intro i hi
    rw [List.mem_filter] at hi
    obtain ⟨hnn, hlt⟩ := by simpa [decide_eq_true_eq] using hi.2
    omega
  refine ⟨?_, ?_, ?_⟩
  · rw [List.all_eq_true]
    intro i hi
    simpa using hmem i hi
  · rw [List.all_eq_true]
    intro c hc
    unfold retrievedChunksOf at hc
    rw [List.mem_map] at hc
    obtain ⟨i, hi, hci⟩ := hc
    have hlt := hmem i hi
    rw [List.getD_eq_getElem _ _ hlt] at hci
    subst hci
    have hm : chunks[i.toNat] ∈ chunks := List.getElem_mem hlt
    simpa [List.contains, List.elem_iff] using hm
  · unfold retrievedChunksOf
    rw [List.length_map]
    exact List.length_filter_le _ _

/-! ## Handler structure lemmas -/

theorem retrieval_phase_spec (env : Env) (sys : SysState) (st1 : GenState)
    (p2 l : String) (ff mm : Bool) (ag un : Option String)
    (hist : List (String × String)) :
    ∃ retrieved score,
      (retrieval_phase env sys st1 p2 l ff mm ag un hist).2.retrieval
        = some ⟨retrieved, score, ragReliableOf retrieved score⟩
      ∧ (retrieval_phase env sys st1 p2 l ff mm ag un hist).1.body.source
        = some (if ragReliableOf retrieved score then "rag" else "general")
      ∧ (retrieval_phase env sys st1 p2 l ff mm ag un hist).1.body.rag_score
        = some score
      ∧ (retrieval_phase env sys st1 p2 l ff mm ag un hist).1.status = 200 := by
  refine ⟨retrievedChunksOf sys.chunks
      ((sys.search [hash_embed sys.sqrtF p2 sys.embedDim] 3).2.headD []),
    ragScoreOf (sys.search [hash_embed sys.sqrtF p2 sys.embedDim] 3).1, ?_⟩
  simp only [retrieval_phase, generate_phase]
  split <;> simp

theorem llama_chat_retrieval_cases (env : Env) (sys : SysState)
    (oracle : List GenOut) (req : ChatRequest) :
    (llama_chat env sys oracle req).2.retrieval = none ∨
    ∃ st1 p2 l ff mm ag un hist,
      llama_chat env sys oracle req = retrieval_phase env sys st1 p2 l ff mm ag un hist := by
  simp only [llama_chat]
  split
  · exact Or.inl rfl
  · split
    · exact Or.inl rfl
    · split
      · exact Or.inl rfl
      · split
        · exact Or.inl rfl
        · exact Or.inr ⟨_, _, _, _, _, _, _, _, rfl⟩

theorem maybeTranslate_calls_cases (hi m : Bool) (p : String) (oracle : List GenOut) :
    (maybeTranslatePrompt hi m p ⟨oracle, []⟩).2.calls = []
    ∨ (maybeTranslatePrompt hi m p ⟨oracle, []⟩).2.calls = [GenCallTag.translateEn] := by
  cases hi <;> cases m <;> cases oracle <;>
    simp [maybeTranslatePrompt, translate_with_llm_to_english, doGenerate]

theorem maybeTranslate_calls_notHi (m : Bool) (p : String) (oracle : List GenOut) :
    (maybeTranslatePrompt false m p ⟨oracle, []⟩).2.calls = [] := rfl

theorem maybeTranslate_calls_noModel (hi : Bool) (p : String) (oracle : List GenOut) :
    (maybeTranslatePrompt hi false p ⟨oracle, []⟩).2.calls = [] := by
  cases hi <;> rfl

theorem retrieval_phase_calls_ff (env : Env) (sys : SysState) (st1 : GenState)
    (p2 l : String) (mm : Bool) (ag un : Option String)
    (hist : List (String × String)) :
    (retrieval_phase env sys st1 p2 l true mm ag un hist).2.calls = st1.calls := by
  simp [retrieval_phase]

theorem llama_chat_calls_ff (env : Env) (sys : SysState) (oracle : List GenOut)
    (req : ChatRequest)
    (hfb : forceFallbackOf req.fallback env.forceFallbackEnv = true) :
    (llama_chat env sys oracle req).2.calls = []
    ∨ (llama_chat env sys oracle req).2.calls
        = (maybeTranslatePrompt (isHi (langHintOf req))
            (!!(sys.tokenizerLoaded && sys.llmLoaded))
            (stripMarkers (promptField req)) ⟨oracle, []⟩).2.calls := by
  simp only [llama_chat]
  split
  · exact Or.inl rfl
  · split
    · exact Or.inl rfl
    · split
      · exact Or.inr rfl
      · split
        · exact Or.inr rfl
        · rw [hfb]
          exact Or.inr (retrieval_phase_calls_ff _ _ _ _ _ _ _ _ _)

/-! ## Claims about the `/llama-chat` handler -/

/-- C1: in `/llama-chat`, for every request that reaches retrieval, the
response field `source` equals `"rag"` exactly when the retrieval was
classified reliable (`rag_reliable`), which holds exactly when the
retrieved chunk list is non-empty and the derived score is not `None` and
is at least `0.70`; otherwise `source` equals `"general"`. -/
theorem llama_chat_source_rag_iff (env : Env) (sys : SysState)
    (oracle : List GenOut) (req : ChatRequest) (rinfo : RetrievalInfo)
    (h : (llama_chat env sys oracle req).2.retrieval = some rinfo) :
    ((llama_chat env sys oracle req).1.body.source = some "rag"
      ↔ rinfo.reliable = true)
    ∧ (rinfo.reliable = true
      ↔ rinfo.retrieved ≠ [] ∧ ∃ v, rinfo.score = some v ∧ (7 : ℚ)/10 ≤ v)
    ∧ ((llama_chat env sys oracle req).1.body.source = some "rag"
      ∨ (llama_chat env sys oracle req).1.body.source = some "general") := by
  rcases llama_chat_retrieval_cases env sys oracle req with
    hnone | ⟨st1, p2, l, ff, mm, ag, un, hist, heq⟩
  · rw [hnone] at h
    exact Option.noConfusion h
  · rw [heq] at h ⊢
    obtain ⟨retrieved, score, h1, h2, h3, _⟩ :=
      retrieval_phase_spec env sys st1 p2 l ff mm ag un hist
    rw [h1, Option.some.injEq] at h
    subst h
    refine ⟨?_, ?_, ?_⟩
    · rw [h2]
      cases hrel : ragReliableOf retrieved score <;> simp [hrel]
    · simpa using ragReliable_iff retrieved score
    · rw [h2]
      cases hrel : ragReliableOf retrieved score
      · exact Or.inr (by simp)
      · exact Or.inl (by simp)

/-- Witness for C1: a run with one retrieved chunk at distance `1/10`
(score `9/10 ≥ 0.70`) reaches retrieval and is classified reliable, and the
iff of the theorem holds there. -/
theorem llama_chat_source_rag_iff_witness :
    ((llama_chat defaultEnv sysRagOnly [] reqPollution).2.retrieval
      = some ⟨["c0"], some (9/10), true⟩)
    ∧ (((llama_chat defaultEnv sysRagOnly [] reqPollution).1.body.source = some "rag"
        ↔ (RetrievalInfo.mk ["c0"] (some (9/10)) true).reliable = true)
      ∧ ((RetrievalInfo.mk ["c0"] (some (9/10)) true).reliable = true
        ↔ (RetrievalInfo.mk ["c0"] (some (9/10)) true).retrieved ≠ []
            ∧ ∃ v, (RetrievalInfo.mk ["c0"] (some (9/10)) true).score = some v
                ∧ (7 : ℚ)/10 ≤ v)
      ∧ ((llama_chat defaultEnv sysRagOnly [] reqPollution).1.body.source = some "rag"
        ∨ (llama_chat defaultEnv sysRagOnly [] reqPollution).1.body.source
            = some "general")) :=
  have h : (llama_chat defaultEnv sysRagOnly [] reqPollution).2.retrieval
      = some ⟨["c0"], some (9/10), true⟩ := by decide
  ⟨h, llama_chat_source_rag_iff defaultEnv sysRagOnly [] reqPollution
      ⟨["c0"], some (9/10), true⟩ h⟩

/-- C9: if the top-1 distance lies outside `[0, 2]`, the derived score is
`None`; and every `/llama-chat` run that reaches retrieval with a `None`
score reports `rag_score = null` in the response and classifies the
retrieval as not reliable (`source = "general"`). -/
theorem ragScore_none_outside_range (d0 : ℚ) (rest : List ℚ)
    (rows : List (List ℚ)) (h : d0 < 0 ∨ 2 < d0) :
    ragScoreOf ((d0 :: rest) :: rows) = none
    ∧ (∀ env sys oracle req rinfo,
        (llama_chat env sys oracle req).2.retrieval = some rinfo →
        rinfo.score = none →
        (llama_chat env sys oracle req).1.body.rag_score = some none
        ∧ (llama_chat env sys oracle req).1.body.source = some "general") := by
  constructor
  · show (if 0 ≤ d0 ∧ d0 ≤ 1 then some (pyMax 0 (pyMin 1 (1 - d0)))
      else if 0 ≤ d0 ∧ d0 ≤ 2 then some (pyMax 0 (pyMin 1 (1 - d0 / 2))) else none)
      = none
    rcases h with h | h
    · rw [if_neg (fun hc => absurd hc.1 (not_le.mpr h)),
          if_neg (fun hc => absurd hc.1 (not_le.mpr h))]
    · rw [if_neg (fun hc => absurd hc.2 (not_le.mpr (lt_trans one_lt_two h))),
          if_neg (fun hc => absurd hc.2 (not_le.mpr h))]
  · intro env sys oracle req rinfo hr hs
    rcases llama_chat_retrieval_cases env sys oracle req with
      hnone | ⟨st1, p2, l, ff, mm, ag, un, hist, heq⟩
    · rw [hnone] at hr
      exact Option.noConfusion hr
    · rw [heq] at hr ⊢
      obtain ⟨retrieved, score, h1, h2, h3, _⟩ :=
        retrieval_phase_spec env sys st1 p2 l ff mm ag un hist
      rw [h1, Option.some.injEq] at hr
      subst hr
      have hs2 : score = none := hs
      subst hs2
      refine ⟨h3, ?_⟩
      rw [h2]
      simp [ragReliableOf]

/-- Witness for C9: distance `3` lies outside `[0, 2]`; a run whose index
reports that distance reaches retrieval with a `None` score and answers
with `rag_score = null` and `source = "general"`. -/
theorem ragScore_none_outside_range_witness :
    ((3 : ℚ) < 0 ∨ 2 < (3 : ℚ))
    ∧ ragScoreOf [[(3 : ℚ)]] = none
    ∧ (llama_chat defaultEnv sysFarIndex [] reqPollutionFallback).1.body.rag_score
        = some none
    ∧ (llama_chat defaultEnv sysFarIndex [] reqPollutionFallback).1.body.source
        = some "general" :=
  have h3 : (3 : ℚ) < 0 ∨ 2 < (3 : ℚ) := Or.inr (by decide)
  have hr : (llama_chat defaultEnv sysFarIndex [] reqPollutionFallback).2.retrieval
      = some ⟨["c0"], none, false⟩ := by decide
  have hs : (RetrievalInfo.mk ["c0"] none false).score = none := rfl
  ⟨h3, (ragScore_none_outside_range 3 [] [] h3).1,
   ((ragScore_none_outside_range 3 [] [] h3).2 defaultEnv sysFarIndex []
      reqPollutionFallback ⟨["c0"], none, false⟩ hr hs).1,
   ((ragScore_none_outside_range 3 [] [] h3).2 defaultEnv sysFarIndex []
      reqPollutionFallback ⟨["c0"], none, false⟩ hr hs).2⟩

/-- C3 as stated is false on the code: a request with `fallback=true` but
`lang="hi-IN"`, against a loaded model, still invokes `llm.generate` once —
for the Hindi pre-translation of the prompt, which runs before the
forced-fallback branch is consulted. -/
theorem llama_chat_fallback_translation_called :
    reqHindiFallback.fallback = FallbackField.bool true
    ∧ (llama_chat defaultEnv sysFarIndex [⟨"translated text", 5⟩] reqHindiFallback).2.calls
        = [GenCallTag.translateEn]
    ∧ (llama_chat defaultEnv sysFarIndex [⟨"translated text", 5⟩] reqHindiFallback).2.calls
        ≠ [] := by
  refine ⟨rfl, ?_, ?_⟩ <;> decide

/-- C3 amended: with `fallback=true`, `/llama-chat` never invokes
`llm.generate` for main generation, continuation, or Hindi post-translation;
moreover, if the language hint does not start with `hi`, or the model is not
fully loaded, `llm.generate` is not invoked at all (the one remaining call
site is the Hindi prompt pre-translation). -/
theorem llama_chat_fallback_no_generation (env : Env) (sys : SysState)
    (oracle : List GenOut) (req : ChatRequest)
    (hfb : forceFallbackOf req.fallback env.forceFallbackEnv = true) :
    (GenCallTag.mainGen ∉ (llama_chat env sys oracle req).2.calls
      ∧ GenCallTag.continuation ∉ (llama_chat env sys oracle req).2.calls
      ∧ GenCallTag.translateHi ∉ (llama_chat env sys oracle req).2.calls)
    ∧ (isHi (langHintOf req) = false → (llama_chat env sys oracle req).2.calls = [])
    ∧ ((sys.tokenizerLoaded && sys.llmLoaded) = false
        → (llama_chat env sys oracle req).2.calls = []) := by
  rcases llama_chat_calls_ff env sys oracle req hfb with hc | hc
  · rw [hc]
    exact ⟨⟨by simp, by simp, by simp⟩, fun _ => rfl, fun _ => rfl⟩
  · refine ⟨?_, ?_, ?_⟩
    · rcases maybeTranslate_calls_cases (isHi (langHintOf req))
          (!!(sys.tokenizerLoaded && sys.llmLoaded))
          (stripMarkers (promptField req)) oracle with h2 | h2 <;>
        rw [hc, h2] <;> exact ⟨by simp, by simp, by simp⟩
    · intro hhi
      rw [hc, hhi]
      exact maybeTranslate_calls_notHi _ _ _
    · intro hm
      rw [hc, hm]
      exact maybeTranslate_calls_noModel _ _ _

/-- Witness for C3 (amended): a forced-fallback request without a Hindi
language hint makes no generation call at all. -/
theorem llama_chat_fallback_no_generation_witness :
    forceFallbackOf reqPollutionFallback.fallback defaultEnv.forceFallbackEnv = true
    ∧ isHi (langHintOf reqPollutionFallback) = false
    ∧ (llama_chat defaultEnv sysFarIndex [] reqPollutionFallback).2.calls = [] :=
  have hfb : forceFallbackOf reqPollutionFallback.fallback defaultEnv.forceFallbackEnv
      = true := rfl
  have hhi : isHi (langHintOf reqPollutionFallback) = false := rfl
  ⟨hfb, hhi,
   (llama_chat_fallback_no_generation defaultEnv sysFarIndex [] reqPollutionFallback
      hfb).2.1 hhi⟩

/-- C4 as stated is false on the code: with the tokenizer missing, a POST
with prompt `"hello"` and `ageGroup="kid"` takes the greeting shortcut and
returns HTTP 200 with a non-empty result, but that branch's response dict
(lines 1423-1431) carries no `llm_used` key at all — in particular the body
does not contain `llm_used = false`. -/
theorem llama_chat_kid_hello_no_llm_used_key :
    (llama_chat defaultEnv sysNoTokenizer [] reqHelloKid).1.status = 200
    ∧ (llama_chat defaultEnv sysNoTokenizer [] reqHelloKid).1.body.result.getD "" ≠ ""
    ∧ (llama_chat defaultEnv sysNoTokenizer [] reqHelloKid).1.body.llm_used = none
    ∧ (llama_chat defaultEnv sysNoTokenizer [] reqHelloKid).1.body.llm_used
        ≠ some false := by
  refine ⟨?_, ?_, ?_, ?_⟩ <;> decide

/-- C4 amended: when the model is unavailable (tokenizer not loaded) and the
RAG components are initialized, a POST to `/llama-chat` with prompt
`"hello"` and `ageGroup="kid"` returns HTTP 200 with a non-empty result
string, and the JSON body contains no `llm_used` key (so `llm_used` is in
particular never reported as true). -/
theorem llama_chat_kid_hello_no_model (sys : SysState) (oracle : List GenOut)
    (h1 : sys.ragInit = true) (h2 : sys.tokenizerLoaded = false) :
    (llama_chat defaultEnv sys oracle reqHelloKid).1.status = 200
    ∧ (llama_chat defaultEnv sys oracle reqHelloKid).1.body.result.getD "" ≠ ""
    ∧ (llama_chat defaultEnv sys oracle reqHelloKid).1.body.llm_used = none := by
  obtain ⟨ri, tk, lm, ch, dim, sq, se⟩ := sys
  simp only at h1 h2
  subst h1
  subst h2
  refine ⟨rfl, ?_, rfl⟩
  have hres : (llama_chat defaultEnv ⟨true, false, lm, ch, dim, sq, se⟩ oracle
      reqHelloKid).1.body.result
      = some (conversational_fallback "hello" none (some "kid") [] "") := rfl
  rw [hres]
  decide

/-- Witness for C4 (amended): the hypotheses hold for the concrete
no-tokenizer state, and the conclusion is produced there. -/
theorem llama_chat_kid_hello_no_model_witness :
    sysNoTokenizer.ragInit = true
    ∧ sysNoTokenizer.tokenizerLoaded = false
    ∧ (llama_chat defaultEnv sysNoTokenizer [] reqHelloKid).1.status = 200
    ∧ (llama_chat defaultEnv sysNoTokenizer [] reqHelloKid).1.body.llm_used = none :=
  ⟨rfl, rfl,
   (llama_chat_kid_hello_no_model sysNoTokenizer [] rfl rfl).1,
   (llama_chat_kid_hello_no_model sysNoTokenizer [] rfl rfl).2.2⟩

/-- C8 as stated is false on the code for `/llama-chat`: the
RAG-initialization guard (lines 1299-1304) runs before the prompt check, so
when the RAG components failed to import and no override is set, a POST
with no prompt is answered 503, not 400. -/
theorem llama_chat_missing_prompt_503_when_rag_uninit :
    reqNoPrompt.prompt = none
    ∧ (llama_chat defaultEnv sysNoRag [] reqNoPrompt).1.status = 503
    ∧ (llama_chat defaultEnv sysNoRag [] reqNoPrompt).1.status ≠ 400 := by
  refine ⟨rfl, rfl, ?_⟩
  decide

/-- C8 amended: provided the RAG components are initialized (or the
fallback-without-RAG override is set), a POST to `/llama-chat` whose body
lacks the prompt field or carries an empty prompt is answered HTTP 400 with
an `error` key; for `/llama-chat-stream` the same holds unconditionally,
because there the prompt check precedes the RAG guard. -/
theorem llama_chat_missing_prompt_400 (env : Env) (sys : SysState)
    (oracle : List GenOut) (req req2 : ChatRequest)
    (hp : req.prompt = none ∨ req.prompt = some "")
    (hr : sys.ragInit = true ∨ env.allowFallbackWithoutRag = true)
    (hp2 : req2.prompt = none ∨ req2.prompt = some "") :
    ((llama_chat env sys oracle req).1.status = 400
      ∧ (llama_chat env sys oracle req).1.body.error = some "No prompt provided")
    ∧ ((llama_chat_stream env sys req2).1.status = 400
      ∧ (llama_chat_stream env sys req2).1.body.error = some "No prompt provided") := by
  constructor
  · have hguard : (!sys.ragInit && !env.allowFallbackWithoutRag) = false := by
      rcases hr with hr | hr <;> rw [hr] <;> simp
    simp only [llama_chat, hguard]
    rcases hp with hp | hp <;> simp [promptField, hp]
  · simp only [llama_chat_stream]
    rcases hp2 with hp2 | hp2 <;> simp [promptField, hp2]

/-- Witness for C8 (amended): a promptless request against an initialized
RAG state is answered 400 by both handlers. -/
theorem llama_chat_missing_prompt_400_witness :
    (reqNoPrompt.prompt = none ∨ reqNoPrompt.prompt = some "")
    ∧ (sysRagOnly.ragInit = true ∨ defaultEnv.allowFallbackWithoutRag = true)
    ∧ (llama_chat defaultEnv sysRagOnly [] reqNoPrompt).1.status = 400
    ∧ (llama_chat_stream defaultEnv sysRagOnly reqNoPrompt).1.status = 400 :=
  have hp : reqNoPrompt.prompt = none ∨ reqNoPrompt.prompt = some "" := Or.inl rfl
  have hr : sysRagOnly.ragInit = true ∨ defaultEnv.allowFallbackWithoutRag = true :=
    Or.inl rfl
  ⟨hp, hr,
   ((llama_chat_missing_prompt_400 defaultEnv sysRagOnly [] reqNoPrompt reqNoPrompt
      hp hr hp).1).1,
   ((llama_chat_missing_prompt_400 defaultEnv sysRagOnly [] reqNoPrompt reqNoPrompt
      hp hr hp).2).1⟩

end RatReducible

end ChaCha
